import Mathlib

/-!
Verification of the quiz-video generation pipeline
(`generate_quiz_video.py`) against its natural-language specification.

The script is a straight-line pipeline: content generation with a
fallback question list, background resolution, TTS with a
piper/espeak fallback chain, five fixed scenes, an ffmpeg xfade merge,
and a music-mixing export step.  The definitions below are a shallow
embedding of that script: pure functions from the outcomes of the
external tools (modelled as boolean/optional inputs) to the commands
the script would issue and the values it would return.  Durations are
modelled as rationals.
-/

namespace QuizVideo

/-- A parsed quiz item, as produced by `generate_quiz_question`
(either parsed from the language model's JSON output or taken from the
hardcoded fallback list).  `correct` and `votes` are integers because
a parsed JSON object may carry arbitrary integer values. -/
structure QuizItem where
  question : String
  options : List String
  correct : Int
  votes : List Int
deriving DecidableEq

/-- The invariant claimed for generated items: exactly 4 options,
correct index in range, votes summing to 100. -/
def itemValid (q : QuizItem) : Prop :=
  q.options.length = 4 ∧ 0 ≤ q.correct ∧ q.correct < 4 ∧ q.votes.sum = 100

instance (q : QuizItem) : Decidable (itemValid q) := by
  unfold itemValid; infer_instance

/-- The three hardcoded fallback questions of `generate_quiz_question`
(source lines 96-115), verbatim. -/
def fallbackQuestions : List QuizItem :=
  [ { question := "Was ist der höchste Berg der Erde?"
    , options := ["K2", "Mount Everest", "Kangchenjunga", "Nanga Parbat"]
    , correct := 1
    , votes := [5, 80, 10, 5] }
  , { question := "Wer malte die Mona Lisa?"
    , options := ["Picasso", "Da Vinci", "Van Gogh", "Monet"]
    , correct := 1
    , votes := [5, 85, 7, 3] }
  , { question := "Welche Farbe entsteht durch Mischen von Rot und Blau?"
    , options := ["Grün", "Lila", "Orange", "Gelb"]
    , correct := 1
    , votes := [3, 88, 5, 4] } ]

/-- Embedding of `generate_quiz_question` (source lines 70-118).
`gptOutput` models the outcome of the GPT4All branch: `some q` when the
model was importable, generated text, and `json.loads` parsed it into
`q`; `none` when any step of that branch raised.  The parsed item is
returned as-is, with no validation or repair.  On the fallback branch
`random.choice` is modelled by the index `choice` taken modulo the
length of the fallback list. -/
def generate_quiz_question (gptOutput : Option QuizItem) (choice : Nat) : QuizItem :=
  match gptOutput with
  | some q => q
  | none => fallbackQuestions.getD (choice % fallbackQuestions.length)
      { question := "", options := [], correct := 0, votes := [] }

/-- The kinds of scenes the script creates. -/
inductive SegKind
  | intro | question | countdown | answers | reveal
deriving DecidableEq

/-- The output filename each scene-creation function writes
(`create_scene_intro` ... `create_scene_reveal`). -/
def sceneFile : SegKind → String
  | SegKind.intro => "scene_intro.mp4"
  | SegKind.question => "scene_question.mp4"
  | SegKind.countdown => "scene_countdown.mp4"
  | SegKind.answers => "scene_answers.mp4"
  | SegKind.reveal => "scene_reveal.mp4"

/-- The order in which `main` creates the scenes (source lines 544-548):
intro, question, countdown, answers, reveal. -/
def mainTimeline : List SegKind :=
  [SegKind.intro, SegKind.question, SegKind.countdown, SegKind.answers, SegKind.reveal]

/-- The `inputs` list of `merge_scenes_with_crossfade` (source line 440):
the five scene files, in the order they are concatenated. -/
def mergeInputs : List String :=
  ["scene_intro.mp4", "scene_question.mp4", "scene_countdown.mp4",
   "scene_answers.mp4", "scene_reveal.mp4"]

/-- Python's two-argument `max(a, b)`: returns `b` when `a < b`,
otherwise `a`. -/
def pymax (a b : ℚ) : ℚ := if a < b then b else a

/-- The crossfade duration of `merge_scenes_with_crossfade`
(source line 444): `cross_dur = 0.7`. -/
def cross_dur : ℚ := 7 / 10

/-- The offset-accumulation loop of `merge_scenes_with_crossfade`
(source lines 446-450): for each duration except the last,
`cum += d; offsets.append(max(0.1, cum - cross_dur/2))`. -/
def offsetsAux (cum : ℚ) : List ℚ → List ℚ
  | [] => []
  | d :: rest => pymax (1 / 10) (cum + d - cross_dur / 2) :: offsetsAux (cum + d) rest

/-- The `offsets` list computed by `merge_scenes_with_crossfade` over
`durations[:-1]`. -/
def offsets (durations : List ℚ) : List ℚ := offsetsAux 0 durations.dropLast

/-- Duration of the chained `xfade` filter graph built by
`merge_scenes_with_crossfade` (source lines 451-456).  Per the encoding
engine's `xfade` contract, the output of one crossfade stage at offset
`off` whose second input lasts `d` seconds lasts `off + d` seconds; the
script chains one stage per remaining input, each with the
corresponding precomputed offset. -/
def xfadeChain (cur : ℚ) : List (ℚ × ℚ) → ℚ
  | [] => cur
  | (off, d) :: rest => xfadeChain (off + d) rest

/-- Total duration of the merged video produced by
`merge_scenes_with_crossfade` for the given per-scene durations: the
first input's duration folded through the xfade chain with the offsets
the script computes. -/
def mergedDuration (durations : List ℚ) : ℚ :=
  match durations with
  | [] => 0
  | d :: rest => xfadeChain d ((offsets durations).zip rest)

/-- The duration list `main` passes to `merge_scenes_with_crossfade`
(source line 551): `[2, 4, 5, 5, 4]`. -/
def mainDurations : List ℚ := [2, 4, 5, 5, 4]

/-- Filesystem model: a list of `(path, size-in-bytes)` pairs for the
files that exist. -/
abbrev FS := List (String × Nat)

/-- Embedding of `file_exists` (source lines 60-61):
`os.path.isfile(p)` — true exactly when the path is present, with no
size requirement. -/
def file_exists (fs : FS) (p : String) : Bool :=
  (List.lookup p fs).isSome

/-- Outcome of the finalizer `merge_scenes_with_crossfade`: either it
aborts reporting missing artifacts, or it invokes the concatenation
command over a list of input files. -/
inductive MergeOutcome
  | aborted (missing : List String)
  | invoked (inputs : List String)
deriving DecidableEq

/-- True when the outcome runs the concatenation. -/
def MergeOutcome.isInvoked : MergeOutcome → Bool
  | MergeOutcome.aborted _ => false
  | MergeOutcome.invoked _ => true

/-- Embedding of the control flow of `merge_scenes_with_crossfade`
(source lines 439-460): the function builds the ffmpeg xfade command
over the five fixed scene files and runs it immediately; it never
inspects the filesystem, so the outcome does not depend on `fs`. -/
def merge_scenes_with_crossfade (fs : FS) : MergeOutcome :=
  MergeOutcome.invoked mergeInputs

/-- Where the background image finally comes from in `main`. -/
inductive BgSource
  | generated | uploaded | placeholderPIL | placeholderFFmpeg
deriving DecidableEq

/-- Embedding of the background-resolution block of `main`
(source lines 513-537).  `pilAvailable` models `PIL_AVAILABLE`;
`glossSucceeds` models `make_glossy_background` returning `True`
without raising; `uploadedExists` models `file_exists(UPLOADED_BG)`.
The block first tries the procedural glossy background (only when PIL
is importable), then falls back to copying the uploaded image, then to
a solid-colour placeholder (PIL when available, else an ffmpeg colour
source). -/
def resolve_background (pilAvailable glossSucceeds uploadedExists : Bool) : BgSource :=
  let bg_ok := pilAvailable && glossSucceeds
  if bg_ok then BgSource.generated
  else if uploadedExists then BgSource.uploaded
  else if pilAvailable then BgSource.placeholderPIL
  else BgSource.placeholderFFmpeg

/-- Outcomes of the external TTS tools for one run.  `piperFound`
models the binary-location loop of `synthesize_intro_voice_piper`
finding a piper executable; `piperRunOk` models its `run(cmd)` not
raising; `espeakRun1Ok` and `espeakRun2Ok` model the two `run` calls of
`synthesize_intro_voice_espeak` not raising.  `fs` is the state of the
working directory when the `file_exists` checks are made. -/
structure TTSEnv where
  piperFound : Bool
  piperRunOk : Bool
  espeakRun1Ok : Bool
  espeakRun2Ok : Bool
  fs : FS

/-- Embedding of `synthesize_intro_voice_piper` (source lines 237-277):
returns `True` exactly when a piper binary was found, its invocation
did not raise, and the output file exists afterwards (existence only —
`file_exists` never looks at the size). -/
def synthesize_intro_voice_piper (env : TTSEnv) (out_wav : String) : Bool :=
  env.piperFound && env.piperRunOk && file_exists env.fs out_wav

/-- Embedding of `synthesize_intro_voice_espeak` (source lines
279-300): first tries `espeak -v de+f3 -w out text`; if that run
succeeds and the file exists it returns `True`; otherwise (the run
raised, or the file is absent) it tries plain `espeak -w out text` and
returns whether the file exists, `False` if that second run raised. -/
def synthesize_intro_voice_espeak (env : TTSEnv) (out_wav : String) : Bool :=
  if env.espeakRun1Ok && file_exists env.fs out_wav then true
  else if env.espeakRun2Ok then file_exists env.fs out_wav
  else false

/-- Embedding of `synthesize_intro_voice` (source lines 302-311):
piper first, espeak second; returns the wav path on success and `none`
when both providers fail ("No TTS available. Skipping voice
generation."). -/
def synthesize_intro_voice (env : TTSEnv) (out_wav : String) : Option String :=
  if synthesize_intro_voice_piper env out_wav then some out_wav
  else if synthesize_intro_voice_espeak env out_wav then some out_wav
  else none

/-- Embedding of `draw_text_file_filter` (source lines 314-316) with
the default `box=1`. -/
def draw_text_file_filter (fontfile textfile : String) (fontsize : Nat) (y_expr : String) : String :=
  "drawtext=fontfile=" ++ fontfile ++ ":textfile=" ++ textfile ++
    ":fontcolor=white:fontsize=" ++ toString fontsize ++
    ":box=1:boxcolor=black@0.35:boxborderw=12:x=(w-text_w)/2:y=" ++ y_expr

/-- `FONT_PATH` (source line 44). -/
def FONT_PATH : String := "/usr/share/fonts/truetype/dejavu/DejaVuSans-Bold.ttf"

/-- `GENERATED_BG` (source line 41). -/
def GENERATED_BG : String := "background_generated.png"

/-- The video filter of `create_scene_intro` for its default duration
of 2 seconds (source lines 325-327); `duration-0.45` renders as 1.55. -/
def introVf : String :=
  draw_text_file_filter FONT_PATH "title_intro.txt" 64 "320" ++ "," ++
    draw_text_file_filter FONT_PATH "subtitle_intro.txt" 30 "420" ++
    ",fade=t=in:st=0:d=0.45,fade=t=out:st=1.55:d=0.45"

/-- The ffmpeg command `create_scene_intro` issues when a narration
file is available (source lines 332-340). -/
def introCmdWithAudio (voice_wav : String) : List String :=
  ["ffmpeg", "-y", "-loop", "1", "-i", GENERATED_BG, "-i", voice_wav,
   "-t", "2", "-vf", introVf, "-c:v", "libx264", "-pix_fmt", "yuv420p",
   "-c:a", "aac", "-shortest", "scene_intro.mp4"]

/-- The ffmpeg command `create_scene_intro` issues when no narration is
available (source lines 342-349): no audio input, no audio codec. -/
def introCmdNoAudio : List String :=
  ["ffmpeg", "-y", "-loop", "1", "-i", GENERATED_BG,
   "-t", "2", "-vf", introVf, "-c:v", "libx264", "-pix_fmt", "yuv420p",
   "scene_intro.mp4"]

/-- Embedding of the command selection of `create_scene_intro`
(source lines 318-350): the audio branch is taken only when
`voice_wav` is non-null and the file exists. -/
def create_scene_intro_cmd (voice_wav : Option String) (fs : FS) : List String :=
  match voice_wav with
  | some w => if file_exists fs w then introCmdWithAudio w else introCmdNoAudio
  | none => introCmdNoAudio

/-- The intro command `main` ends up issuing, composing
`synthesize_intro_voice` (source line 541) with `create_scene_intro`
(source line 544). -/
def mainIntroCmd (env : TTSEnv) : List String :=
  create_scene_intro_cmd (synthesize_intro_voice env "intro_voice.wav") env.fs

/-- `MUSIC_FILE` (source line 36). -/
def MUSIC_FILE : String := "music/track1.mp3"

/-- The primary music-mix command of `add_music_and_export`
(source lines 470-481), including the 0.25 volume filter on the music
input. -/
def musicPrimaryCmd (input_video music_file output_file : String) : List String :=
  ["ffmpeg", "-y", "-i", input_video, "-i", music_file, "-c:v", "copy",
   "-map", "0:v", "-map", "1:a",
   "-filter_complex", "[1:a]volume=0.25[aout]", "-map", "[aout]",
   "-shortest", output_file]

/-- The fallback music command of `add_music_and_export`
(source lines 486-495), issued when the primary command raises: it maps
the music track directly, with no volume filter. -/
def musicFallbackCmd (input_video music_file output_file : String) : List String :=
  ["ffmpeg", "-y", "-i", input_video, "-i", music_file, "-c:v", "copy",
   "-map", "0:v", "-map", "1:a", "-shortest", output_file]

/-- What `add_music_and_export` does to produce the final file. -/
inductive ExportAction
  | copied
  | ran (cmd : List String)
deriving DecidableEq

/-- Embedding of `add_music_and_export` (source lines 463-496): when
the music file is absent the video is copied; otherwise the primary
mix command runs, and if it raises (`primaryOk = false`) the fallback
command without attenuation runs instead. -/
def add_music_and_export (fs : FS) (primaryOk : Bool)
    (input_video music_file output_file : String) : ExportAction :=
  if !(file_exists fs music_file) then ExportAction.copied
  else if primaryOk then ExportAction.ran (musicPrimaryCmd input_video music_file output_file)
  else ExportAction.ran (musicFallbackCmd input_video music_file output_file)

/-- The first espeak command of `synthesize_intro_voice_espeak`
(source line 286). -/
def espeakCmd1 (out_wav text : String) : List String :=
  ["espeak", "-v", "de+f3", "-w", out_wav, text]

/-- The second espeak command of `synthesize_intro_voice_espeak`
(source line 297). -/
def espeakCmd2 (out_wav text : String) : List String :=
  ["espeak", "-w", out_wav, text]

/-- The sequence of external-tool invocations
`synthesize_intro_voice_espeak` makes: the voiced command always runs;
the plain command also runs unless the first run succeeded and the
output file exists (source lines 286-298). -/
def espeakInvocations (env : TTSEnv) (out_wav text : String) : List (List String) :=
  if env.espeakRun1Ok && file_exists env.fs out_wav then [espeakCmd1 out_wav text]
  else [espeakCmd1 out_wav text, espeakCmd2 out_wav text]

/-- The sequence of external-tool invocations `add_music_and_export`
makes: none when there is no music file; the primary command alone
when it succeeds; the primary then the fallback when it raises. -/
def musicExportInvocations (fs : FS) (primaryOk : Bool)
    (input_video music_file output_file : String) : List (List String) :=
  if !(file_exists fs music_file) then []
  else if primaryOk then [musicPrimaryCmd input_video music_file output_file]
  else [musicPrimaryCmd input_video music_file output_file,
        musicFallbackCmd input_video music_file output_file]

/-- Whitespace as matched by Python's `str.strip()` and the regex
class `\s` (restricted to its ASCII subset): space, tab, newline,
carriage return, vertical tab, form feed. -/
def isSpaceChar (c : Char) : Bool :=
  c = ' ' || c = '\t' || c = '\n' || c = '\x0d' || c = '\x0b' || c = '\x0c'

/-- Word characters as matched by the regex class `\w` (restricted to
its ASCII subset): letters, digits, underscore. -/
def isWordChar (c : Char) : Bool :=
  c.isAlpha || c.isDigit || c = '_'

/-- Python's `s.strip()`: drop leading and trailing whitespace. -/
def pyStrip (l : List Char) : List Char :=
  ((l.dropWhile isSpaceChar).reverse.dropWhile isSpaceChar).reverse

/-- The substitution `re.sub(r'[^\w\s-]', '', s)` (source line 65):
keep only word characters, whitespace, and hyphens. -/
def removeSpecial (l : List Char) : List Char :=
  l.filter (fun c => isWordChar c || isSpaceChar c || c = '-')

/-- The substitution `re.sub(r'\s+', '_', s)` (source line 66): each
maximal run of whitespace becomes a single underscore. -/
def collapseWs : List Char → List Char
  | [] => []
  | c :: rest =>
    if isSpaceChar c then '_' :: collapseWs (rest.dropWhile isSpaceChar)
    else c :: collapseWs rest
termination_by l => l.length
decreasing_by
  · exact Nat.lt_succ_of_le (List.Sublist.length_le (List.dropWhile_sublist _))
  · simp

/-- Embedding of `sanitize_filename` (source lines 63-67): strip, drop
characters outside `[\w\s-]`, collapse whitespace runs to single
underscores, truncate to 120 characters. -/
def sanitize_filename (s : String) : String :=
  String.mk ((collapseWs (removeSpecial (pyStrip s.data))).take 120)

/-! ## Claims -/

/-- C1 counterexample: the content generation operation does not
guarantee the item invariants.  When the generative branch parses an
item with three options, an out-of-range correct index, and votes
summing to 6, `generate_quiz_question` returns it unvalidated. -/
theorem C1_counterexample :
    ¬ itemValid (generate_quiz_question
      (some { question := "q", options := ["A", "B", "C"], correct := 5, votes := [1, 2, 3] })
      0) := by
  decide

/-- C1 (amended): `generate_quiz_question` takes no topic or count and
returns exactly one item; the generative branch returns the parsed
item with no validation, while every item of the fallback branch has
exactly 4 options, a correct index in range, and votes summing to
100. -/
theorem C1_fallback_items_valid : ∀ (choice : Nat) (q : QuizItem),
    generate_quiz_question (some q) choice = q ∧
    itemValid (generate_quiz_question none choice) := by
  intro choice q
  refine ⟨rfl, ?_⟩
  simp only [generate_quiz_question]
  have h : choice % fallbackQuestions.length = 0 ∨ choice % fallbackQuestions.length = 1 ∨
      choice % fallbackQuestions.length = 2 := by
    have hl : fallbackQuestions.length = 3 := rfl
    rw [hl]; omega
  rcases h with h | h | h <;> rw [h] <;> decide

/-- C2 counterexample: the segment immediately after the intro is the
question scene, not the countdown scene, so the claimed relative order
countdown-before-question does not hold. -/
theorem C2_counterexample :
    mainTimeline[1]? = some SegKind.question ∧
    mainTimeline[2]? = some SegKind.countdown ∧
    SegKind.question ≠ SegKind.countdown ∧
    mainTimeline ≠ [SegKind.intro, SegKind.countdown, SegKind.question,
      SegKind.answers, SegKind.reveal] := by
  decide

/-- C2 (amended): the timeline is one intro segment followed by the
four per-quiz segments in the order question, countdown, answers,
reveal; the merge step concatenates the scene files in exactly the
creation order. -/
theorem C2_timeline_order :
    mainTimeline = [SegKind.intro, SegKind.question, SegKind.countdown,
      SegKind.answers, SegKind.reveal] ∧
    mergeInputs = mainTimeline.map sceneFile := by
  exact ⟨rfl, rfl⟩

/-- C3 counterexample: for the durations `main` uses, the duration of
the crossfaded output differs from the sum of the segment durations
(19.65 s versus 20 s). -/
theorem C3_counterexample :
    mergedDuration mainDurations ≠ mainDurations.sum := by
  simp only [mergedDuration, mainDurations, offsets, offsetsAux, xfadeChain, pymax, cross_dur,
    List.dropLast, List.zip, List.zipWith, List.sum, List.foldr]
  norm_num

/-- C3 (amended): for the durations `main` uses, the total duration of
the assembled video is the sum of the segment durations minus half the
crossfade duration (0.35 s), because each precomputed xfade offset
already absorbs the preceding half-crossfades. -/
theorem C3_merged_duration :
    mergedDuration mainDurations = mainDurations.sum - cross_dur / 2 := by
  simp only [mergedDuration, mainDurations, offsets, offsetsAux, xfadeChain, pymax, cross_dur,
    List.dropLast, List.zip, List.zipWith, List.sum, List.foldr]
  norm_num

/-- C4 counterexample: with every scene artifact missing, the
finalizer still invokes the concatenation command instead of
aborting — it performs no artifact verification at all. -/
theorem C4_counterexample :
    mergeInputs.all (file_exists []) = false ∧
    merge_scenes_with_crossfade [] = MergeOutcome.invoked mergeInputs ∧
    (merge_scenes_with_crossfade []).isInvoked = true := by
  decide

/-- C4 (amended): `merge_scenes_with_crossfade` never verifies the
segment artifacts; whatever the state of the filesystem, it invokes
the concatenation command over the five scene files. -/
theorem C4_always_invokes :
    ∀ fs : FS, (merge_scenes_with_crossfade fs).isInvoked = true := by
  intro fs
  rfl

/-- C5 counterexample: with PIL available, procedural synthesis
succeeding, and the uploaded source image present, the background
resolver commits to the procedurally generated image, not to the
previously-supplied source image claimed to be the first provider. -/
theorem C5_counterexample :
    resolve_background true true true = BgSource.generated ∧
    BgSource.generated ≠ BgSource.uploaded := by
  decide

/-- C5 (amended): the background provider order is procedural
synthesis first, the previously-supplied source image second, and a
solid-colour placeholder third (via PIL when available, else the
external encoding engine); the resolver commits to the first provider
that succeeds. -/
theorem C5_chain_order : ∀ p g u : Bool,
    (resolve_background p g u = BgSource.generated ↔ (p = true ∧ g = true)) ∧
    (resolve_background p g u = BgSource.uploaded ↔ (¬(p = true ∧ g = true) ∧ u = true)) ∧
    (resolve_background p g u = BgSource.placeholderPIL ↔
      (p = true ∧ g = false ∧ u = false)) ∧
    (resolve_background p g u = BgSource.placeholderFFmpeg ↔ (p = false ∧ u = false)) := by
  decide

/-- C6: if every TTS provider fails (piper's run raises and both
espeak runs raise), the narration reference is null and the intro
segment is still produced, via the no-audio command — the pipeline
continues rather than aborting. -/
theorem C6_null_narration : ∀ env : TTSEnv,
    (env.piperRunOk = false → env.espeakRun1Ok = false → env.espeakRun2Ok = false →
      synthesize_intro_voice env "intro_voice.wav" = none) ∧
    (synthesize_intro_voice env "intro_voice.wav" = none →
      mainIntroCmd env = introCmdNoAudio) := by
  intro env
  constructor
  · intro h1 h2 h3
    simp [synthesize_intro_voice, synthesize_intro_voice_piper,
      synthesize_intro_voice_espeak, h1, h2, h3]
  · intro h
    unfold mainIntroCmd
    rw [h]
    rfl

/-- C6 witness: a concrete run in which piper is installed but its
invocation raises and both espeak invocations raise: the voice is
`none` and the intro command is the audio-less one. -/
theorem C6_null_narration_witness :
    synthesize_intro_voice ⟨true, false, false, false, []⟩ "intro_voice.wav" = none ∧
    mainIntroCmd ⟨true, false, false, false, []⟩ = introCmdNoAudio := by
  have h := C6_null_narration ⟨true, false, false, false, []⟩
  exact ⟨h.1 rfl rfl rfl, h.2 (h.1 rfl rfl rfl)⟩

/-- C7 counterexample: a zero-byte output file.  `file_exists` is
`os.path.isfile`, so the zero-byte `intro_voice.wav` counts as
existing, and the piper synthesis step reports success on it —
contradicting "a zero-byte file is never treated as success". -/
theorem C7_counterexample :
    List.lookup "intro_voice.wav" ([("intro_voice.wav", 0)] : FS) = some 0 ∧
    file_exists [("intro_voice.wav", 0)] "intro_voice.wav" = true ∧
    synthesize_intro_voice_piper ⟨true, true, true, true, [("intro_voice.wav", 0)]⟩
      "intro_voice.wav" = true := by
  decide

/-- C7 (amended): the success checks of the TTS steps consult only
file existence, never size: success of either synthesis step implies
the output file exists, and a file of any size — including zero —
passes `file_exists`. -/
theorem C7_exists_check_only : ∀ (env : TTSEnv) (out : String),
    (synthesize_intro_voice_piper env out = true → file_exists env.fs out = true) ∧
    (synthesize_intro_voice_espeak env out = true → file_exists env.fs out = true) ∧
    ∀ (p : String) (sz : Nat), file_exists [(p, sz)] p = true := by
  intro env out
  refine ⟨?_, ?_, ?_⟩
  · intro h
    simp only [synthesize_intro_voice_piper, Bool.and_eq_true] at h
    exact h.2
  · intro h
    unfold synthesize_intro_voice_espeak at h
    split at h
    · rename_i hc
      exact (Bool.and_eq_true _ _ |>.mp hc).2
    · split at h
      · exact h
      · exact absurd h (by simp)
  · intro p sz
    simp [file_exists, List.lookup]

/-- C7 witness: the amended theorem applied to a concrete successful
piper run whose output file is present. -/
theorem C7_exists_check_only_witness :
    file_exists ([("x.wav", 5)] : FS) "x.wav" = true :=
  (C7_exists_check_only ⟨true, true, true, true, [("x.wav", 5)]⟩ "x.wav").1 (by decide)

/-- C8 counterexample: a run with music only in which the primary mix
command raises: the fallback command attaches the music track with no
volume filter, so the final output carries unattenuated music. -/
theorem C8_counterexample :
    add_music_and_export [("music/track1.mp3", 1000)] false
      "merged_nosound.mp4" MUSIC_FILE "quiz_out.mp4"
      = ExportAction.ran (musicFallbackCmd "merged_nosound.mp4" MUSIC_FILE "quiz_out.mp4") ∧
    "[1:a]volume=0.25[aout]" ∉
      musicFallbackCmd "merged_nosound.mp4" MUSIC_FILE "quiz_out.mp4" := by
  decide

/-- C8 (amended): when the music file is present and the primary mix
invocation succeeds, the music is attenuated by the fixed 0.25 gain;
when the primary invocation raises, the fallback command maps the
music with no attenuation; without a music file the video is copied. -/
theorem C8_music_attenuation : ∀ (fs : FS) (primaryOk : Bool) (iv mf out : String),
    add_music_and_export fs primaryOk iv mf out =
      (if file_exists fs mf then
        (if primaryOk then ExportAction.ran (musicPrimaryCmd iv mf out)
         else ExportAction.ran (musicFallbackCmd iv mf out))
       else ExportAction.copied) ∧
    "[1:a]volume=0.25[aout]" ∈ musicPrimaryCmd "merged_nosound.mp4" MUSIC_FILE "quiz_out.mp4" ∧
    "[1:a]volume=0.25[aout]" ∉ musicFallbackCmd "merged_nosound.mp4" MUSIC_FILE "quiz_out.mp4" := by
  intro fs primaryOk iv mf out
  refine ⟨?_, by decide, by decide⟩
  unfold add_music_and_export
  cases h : file_exists fs mf <;> simp [h]

/-- C9 counterexample: when the first espeak invocation fails, the
same external tool — espeak — is invoked a second time for the same
narration step, contradicting "never invoking the same external tool
again for the same step". -/
theorem C9_counterexample :
    espeakInvocations ⟨true, true, false, false, []⟩ "intro_voice.wav" "Hallo" =
      [espeakCmd1 "intro_voice.wav" "Hallo", espeakCmd2 "intro_voice.wav" "Hallo"] ∧
    (espeakCmd1 "intro_voice.wav" "Hallo").headD "" = "espeak" ∧
    (espeakCmd2 "intro_voice.wav" "Hallo").headD "" = "espeak" := by
  decide

/-- C9 (amended): no external invocation is repeated with identical
arguments — whenever a step issues several invocations, they are
pairwise distinct commands (espeak is re-invoked without the voice
flag, ffmpeg without the volume filter). -/
theorem C9_distinct_commands : ∀ (env : TTSEnv) (out text : String),
    (espeakInvocations env out text).Pairwise (· ≠ ·) ∧
    ∀ (fs : FS) (primaryOk : Bool) (iv mf o : String),
      (musicExportInvocations fs primaryOk iv mf o).Pairwise (· ≠ ·) := by
  intro env out text
  have hespeak : espeakCmd1 out text ≠ espeakCmd2 out text := by
    intro h
    have hl := congrArg List.length h
    simp [espeakCmd1, espeakCmd2] at hl
  constructor
  · unfold espeakInvocations
    split
    · simp
    · simp [List.pairwise_cons, hespeak]
  · intro fs primaryOk iv mf o
    have hmusic : musicPrimaryCmd iv mf o ≠ musicFallbackCmd iv mf o := by
      intro h
      have hl := congrArg List.length h
      simp [musicPrimaryCmd, musicFallbackCmd] at hl
    unfold musicExportInvocations
    split
    · simp
    · split
      · simp
      · simp [List.pairwise_cons, hmusic]

/-- Every character emitted by `collapseWs` is either the underscore
it substitutes for a whitespace run, or a non-whitespace character of
the input. -/
theorem mem_collapseWs : ∀ l : List Char, ∀ c ∈ collapseWs l,
    c = '_' ∨ (c ∈ l ∧ isSpaceChar c = false) := by
  intro l
  induction l using collapseWs.induct with
  | case1 => simp [collapseWs]
  | case2 a rest ha ih =>
    intro c hc
    simp only [collapseWs, ha, if_true] at hc
    rcases List.mem_cons.mp hc with h | h
    · exact Or.inl h
    · rcases ih c h with h' | ⟨hmem, hsp⟩
      · exact Or.inl h'
      · exact Or.inr ⟨List.mem_cons_of_mem _ ((List.dropWhile_sublist _).subset hmem), hsp⟩
  | case3 a rest ha ih =>
    intro c hc
    simp only [collapseWs, ha, if_false] at hc
    rcases List.mem_cons.mp hc with h | h
    · subst h
      simp only [Bool.not_eq_true] at ha
      exact Or.inr ⟨List.mem_cons_self _ _, ha⟩
    · rcases ih c h with h' | ⟨hmem, hsp⟩
      · exact Or.inl h'
      · exact Or.inr ⟨List.mem_cons_of_mem _ hmem, hsp⟩

/-- Dropping leading whitespace skips over a fully-whitespace block. -/
theorem dropWhile_append_all : ∀ run rest : List Char, run.all isSpaceChar = true →
    (run ++ rest).dropWhile isSpaceChar = rest.dropWhile isSpaceChar := by
  intro run
  induction run with
  | nil => intro rest _; rfl
  | cons a run ih =>
    intro rest h
    simp only [List.all_cons, Bool.and_eq_true] at h
    simp [List.cons_append, List.dropWhile_cons, h.1, ih rest h.2]

/-- A maximal whitespace run at the front of the input becomes a single
underscore: `collapseWs` of a non-empty all-whitespace block followed
by text whose first character is not whitespace is an underscore
followed by `collapseWs` of the text. -/
theorem collapseWs_space_run : ∀ run rest : List Char,
    run.all isSpaceChar = true → run ≠ [] →
    (∀ c, rest.head? = some c → isSpaceChar c = false) →
    collapseWs (run ++ rest) = '_' :: collapseWs rest := by
  intro run rest hall hne hhead
  match run, hne with
  | a :: run', _ =>
    simp only [List.all_cons, Bool.and_eq_true] at hall
    have h1 : collapseWs ((a :: run') ++ rest) =
        '_' :: collapseWs ((run' ++ rest).dropWhile isSpaceChar) := by
      simp [collapseWs, List.cons_append, hall.1]
    have h2 : List.dropWhile isSpaceChar rest = rest := by
      cases rest with
      | nil => rfl
      | cons b rest' => simp [List.dropWhile_cons, hhead b rfl]
    rw [h1, dropWhile_append_all run' rest hall.2, h2]

/-- C10: for every input string, `sanitize_filename` returns at most
120 characters, all of them word characters or hyphens; in particular
the path separator never survives; and each maximal whitespace run is
replaced by one underscore. -/
theorem C10_sanitize_props : ∀ s : String,
    (sanitize_filename s).length ≤ 120 ∧
    (∀ c ∈ (sanitize_filename s).data, isWordChar c = true ∨ c = '-') ∧
    '/' ∉ (sanitize_filename s).data ∧
    (∀ run rest : List Char, run.all isSpaceChar = true → run ≠ [] →
      (∀ c, rest.head? = some c → isSpaceChar c = false) →
      collapseWs (run ++ rest) = '_' :: collapseWs rest) := by
  intro s
  have hdata : (sanitize_filename s).data =
      (collapseWs (removeSpecial (pyStrip s.data))).take 120 := rfl
  have hmem : ∀ c ∈ (sanitize_filename s).data, isWordChar c = true ∨ c = '-' := by
    intro c hc
    rw [hdata] at hc
    have hc' := List.take_subset _ _ hc
    rcases mem_collapseWs _ c hc' with h | ⟨hmemf, hsp⟩
    · subst h
      exact Or.inl (by decide)
    · unfold removeSpecial at hmemf
      have hpred := (List.mem_filter.mp hmemf).2
      simp only [hsp, Bool.or_false, Bool.or_eq_true, decide_eq_true_eq] at hpred
      exact hpred
  refine ⟨?_, hmem, ?_, collapseWs_space_run⟩
  · have hlen : (sanitize_filename s).length =
        ((collapseWs (removeSpecial (pyStrip s.data))).take 120).length := rfl
    rw [hlen, List.length_take]
    exact min_le_left _ _
  · intro h
    rcases hmem '/' h with h' | h'
    · exact absurd h' (by decide)
    · exact absurd h' (by decide)

/-- C10 witness: the theorem applied to a concrete title, and the
run-collapsing clause applied to a concrete whitespace run. -/
theorem C10_sanitize_props_witness :
    (sanitize_filename "Rate mit").length ≤ 120 ∧
    collapseWs ([' ', '\t'] ++ ['a']) = '_' :: collapseWs ['a'] := by
  have h := C10_sanitize_props "Rate mit"
  refine ⟨h.1, h.2.2.2 [' ', '\t'] ['a'] (by decide) (by decide) ?_⟩
  intro c hc
  simp only [List.head?_cons, Option.some.injEq] at hc
  subst hc
  decide

end QuizVideo
